import Mathlib

/-!
Verification development for the meet-scribe audio capture engine
(`src/apps/desktop/src-tauri/src/adapters/audio/{linux,windows}.rs`,
`src/apps/desktop/src-tauri/src/utils/audio_file.rs`,
`src/apps/desktop/src-tauri/src/ports/audio.rs`).

Sample values are modelled as rationals.  Every floating-point operation the
converters perform is exact in IEEE-754 binary32 — the integer operands have at
most 24 significant bits and the divisors / multipliers are powers of two — so
the rational model computes exactly the `f32` values the Rust code produces.

Shared mutable state (the `is_capturing` flag and `audio_buffer` vector, each
behind its own `Mutex`) is modelled as fields of an explicit controller state;
operations that in Rust hold a lock for a critical section become single atomic
state transitions on that state.
-/

namespace MeetScribe

/-- `AudioFormat` from `ports/audio.rs`: sample rate, channel count, bit depth. -/
structure AudioFormat where
  sample_rate : Nat
  channels : Nat
  bits_per_sample : Nat
deriving DecidableEq, Repr

/-- `AudioFormat::default()`: the 16 kHz mono 16-bit placeholder used before a
capture session negotiates the real format. -/
def AudioFormat.placeholder : AudioFormat := ⟨16000, 1, 16⟩

/-- `AudioBuffer` from `ports/audio.rs`: drained samples plus their format. -/
structure AudioBuffer where
  samples : List ℚ
  format : AudioFormat
deriving DecidableEq, Repr

/-- `i16::from_le_bytes([b0, b1])`: two little-endian bytes read as a
two's-complement 16-bit integer.  Bytes are reduced mod 256 (`u8`). -/
def i16_from_le_bytes (b0 b1 : Nat) : Int :=
  let u := b0 % 256 + 256 * (b1 % 256)
  if u < 32768 then (u : Int) else (u : Int) - 65536

/-- The 24-bit branch of `WasapiAudioCapture::convert_samples_to_f32`
(windows.rs:326-328): the three chunk bytes are copied into bytes 1..4 of a
four-byte buffer (low byte left zero) and the result is read with
`i32::from_le_bytes`, i.e. the 24-bit value is shifted left by 8 and
sign-extended via the 32-bit two's-complement reading. -/
def i32_from_le_high3 (c0 c1 c2 : Nat) : Int :=
  let u := 256 * (c0 % 256) + 65536 * (c1 % 256) + 16777216 * (c2 % 256)
  if u < 2147483648 then (u : Int) else (u : Int) - 4294967296

namespace PulseAudioCapture

/-- `PulseAudioCapture::convert_samples` (linux.rs:48-50): each `i16` sample
divided by 32768.0.  Exact in `f32`, hence the rational model is exact. -/
def convert_samples (samples : List Int) : List ℚ :=
  samples.map (fun s => (s : ℚ) / 32768)

end PulseAudioCapture

namespace WasapiAudioCapture

/-- The 16-bit branch of `convert_samples_to_f32` (windows.rs:309-315):
`data.chunks_exact(2)`, each pair read as little-endian `i16`, divided by
32768.0.  A trailing odd byte is discarded, as `chunks_exact` does. -/
def pcm16Samples : List Nat → List ℚ
  | b0 :: b1 :: rest => ((i16_from_le_bytes b0 b1 : ℚ) / 32768) :: pcm16Samples rest
  | _ => []

/-- The 24-bit branch of `convert_samples_to_f32` (windows.rs:323-331):
`data.chunks_exact(3)`, each triple placed in the high three bytes of an
`i32` (low byte zero) and divided by 8388608.0.  Exact in `f32`: the `i32`
is a multiple of 256 whose quotient fits in 24 bits. -/
def pcm24Samples : List Nat → List ℚ
  | c0 :: c1 :: c2 :: rest =>
      ((i32_from_le_high3 c0 c1 c2 : ℚ) / 8388608) :: pcm24Samples rest
  | _ => []

/-- The 32-bit branch of `convert_samples_to_f32` (windows.rs:316-322):
`data.chunks_exact(4)`, each quadruple decoded with `f32::from_le_bytes` and
passed through unchanged.  The IEEE-754 decode itself is abstracted as the
parameter `dec` because NaN and the infinities have no rational image; the
integer branches below are independent of it. -/
def float32Samples (dec : Nat → Nat → Nat → Nat → ℚ) : List Nat → List ℚ
  | b0 :: b1 :: b2 :: b3 :: rest => dec b0 b1 b2 b3 :: float32Samples dec rest
  | _ => []

/-- `WasapiAudioCapture::convert_samples_to_f32` (windows.rs:304-338): dispatch
on `format.wBitsPerSample`, in the source's match order 16 / 32 / 24; any other
bit depth yields no samples for the chunk. -/
def convert_samples_to_f32 (dec : Nat → Nat → Nat → Nat → ℚ)
    (data : List Nat) (bits : Nat) : List ℚ :=
  if bits = 16 then pcm16Samples data
  else if bits = 32 then float32Samples dec data
  else if bits = 24 then pcm24Samples data
  else []

end WasapiAudioCapture

/-- `name.split(':').next()`: the characters before the first `:` (the whole
text when there is none). -/
def takeUntilColon : List Char → List Char
  | [] => []
  | c :: rest => if c = ':' then [] else c :: takeUntilColon rest

/-- Drop leading whitespace.  `Char.isWhitespace` covers the ASCII whitespace
relevant to device selectors; Rust's `str::trim` additionally trims exotic
Unicode whitespace, immaterial here. -/
def dropLeadingWs : List Char → List Char
  | [] => []
  | c :: rest => if c.isWhitespace then dropLeadingWs rest else c :: rest

/-- `str::trim`: whitespace removed from both ends. -/
def trimChars (cs : List Char) : List Char :=
  dropLeadingWs ((dropLeadingWs cs.reverse).reverse)

/-- `str::parse::<usize>`: an optional leading `+`, then at least one ASCII
digit and nothing else, rejecting values that overflow the 64-bit `usize`. -/
def parseUsizeChars (cs : List Char) : Option Nat :=
  let t := match cs with
    | '+' :: rest => rest
    | other => other
  match t with
  | [] => none
  | _ =>
    if t.all Char.isDigit then
      let v := t.foldl (fun acc c => acc * 10 + (c.toNat - 48)) 0
      if v < 18446744073709551616 then some v else none
    else none

/-- The selector text an index is parsed from: before the first `:`, then
trimmed. -/
def selectorIndexText (name : String) : List Char :=
  trimChars (takeUntilColon name.data)

/-- The selector-to-index snippet shared by both adapters (linux.rs:460-466,
windows.rs:695-700): take the text before the first `:` (the whole string when
there is none), trim whitespace, parse as `usize`, and default to 0 on a
missing selector or a failed parse. -/
def deviceIndex (device_name : Option String) : Nat :=
  (device_name.bind (fun name => parseUsizeChars (selectorIndexText name))).getD 0

/-- The controller-side state shared between the public methods and the
capture worker: the `is_capturing` flag and the `audio_buffer` vector (each
behind its own `Mutex` in the source), the `format` field, and whether a
worker join handle is held (`capture_handle.is_some()`). -/
structure CaptureCtrl where
  is_capturing : Bool
  audio_buffer : List ℚ
  format : AudioFormat
  capture_handle : Bool
deriving DecidableEq, Repr

/-- Outcome of one `simple.read` call in the Linux capture loop: a chunk of
decoded `i16` samples, or an I/O failure. -/
inductive ReadResult
  | ok (samples : List Int)
  | err
deriving Repr

namespace PulseAudioCapture

/-- `PulseAudioCapture::new` (linux.rs:38-45): inactive, empty buffer,
placeholder format, no worker handle. -/
def new : CaptureCtrl := ⟨false, [], AudioFormat.placeholder, false⟩

/-- `PulseAudioCapture::get_device_name_by_index` (linux.rs:56-70): index 0 is
the default monitor source; any other index yields the placeholder name
`device_<n>`.  Both branches return `Ok`. -/
def get_device_name_by_index (device_index : Nat) : Except String String :=
  if device_index = 0 then Except.ok "@DEFAULT_MONITOR@"
  else Except.ok ("device_" ++ Nat.repr device_index)

/-- The fixed PulseAudio sample spec the worker applies and stores into
`format_info` (linux.rs:481-492): S16le, stereo, 44100 Hz. -/
def negotiatedSpec : AudioFormat := ⟨44100, 2, 16⟩

/-- `PulseAudioCapture::start_capture` (linux.rs:443-579).  The guarded
check-and-set of `is_capturing` is one atomic step (one `Mutex` critical
section).  After it, the worker is spawned and the method sleeps 100 ms, reads
`format_info` (stored by the worker before it acquires the handle; the model
assumes the sleep heuristic won the race) and returns `Ok` — the spawned
worker's failures never reach this return value.  The `?` on
`get_device_name_by_index` would propagate an error only after the flag was
already set; that function never errors. -/
def start_capture (device_name : Option String) (s : CaptureCtrl) :
    Except String Unit × CaptureCtrl :=
  if s.is_capturing then (Except.error "Capture already in progress", s)
  else
    match get_device_name_by_index (deviceIndex device_name) with
    | Except.error e => (Except.error e, { s with is_capturing := true })
    | Except.ok _ =>
        (Except.ok (), { s with is_capturing := true, capture_handle := true,
                                format := negotiatedSpec })

/-- `PulseAudioCapture::stop_capture` (linux.rs:581-599, identical control flow
in windows.rs:809-827): a no-op returning `Ok` when inactive; otherwise clears
the flag, takes and joins the worker handle, and returns `Ok`.  The join is
modelled as succeeding: a `JoinError` arises only from a panicked or aborted
task, and the modelled worker is a total function. -/
def stop_capture (s : CaptureCtrl) : Except String Unit × CaptureCtrl :=
  if s.is_capturing then
    (Except.ok (), { s with is_capturing := false, capture_handle := false })
  else (Except.ok (), s)

/-- `PulseAudioCapture::get_audio_buffer` (linux.rs:601-612, identical in
windows.rs:829-840): under the buffer lock, return `None` when empty,
otherwise drain everything (in order) and return it with the current format. -/
def get_audio_buffer (s : CaptureCtrl) : Option AudioBuffer × CaptureCtrl :=
  match s.audio_buffer with
  | [] => (none, s)
  | x :: xs => (some ⟨x :: xs, s.format⟩, { s with audio_buffer := [] })

/-- Environment of one worker execution: whether `Simple::new` succeeds, and
the outcomes of the successive `simple.read` calls observed while the flag
stays set (the schedule ends when the observation window does). -/
structure WorkerEnv where
  acquireOk : Bool
  reads : List ReadResult

/-- The Linux capture loop (linux.rs:527-553) in an execution with no
concurrent `stop_capture`, so the flag it polls is constant: each iteration
re-checks the flag, reads a chunk, converts it and appends under the buffer
lock; a read failure logs and breaks out of the loop — without touching the
flag.  Returns the final flag, the buffer, and how many reads were attempted. -/
def capture_loop (flag : Bool) : List ℚ → List ReadResult → Bool × List ℚ × Nat
  | buf, [] => (flag, buf, 0)
  | buf, r :: rest =>
    if flag then
      match r with
      | ReadResult.ok samples =>
          let t := capture_loop flag (buf ++ convert_samples samples) rest
          (t.1, t.2.1, t.2.2 + 1)
      | ReadResult.err => (flag, buf, 1)
    else (flag, buf, 0)

/-- The spawned worker body (linux.rs:479-561): store the spec into
`format_info`, then attempt `Simple::new`; on failure log, clear the shared
flag and return without ever entering the read cycle (zero reads, nothing
appended); on success run the capture loop.  Returns the updated shared state
and the number of reads attempted. -/
def worker (env : WorkerEnv) (s : CaptureCtrl) : CaptureCtrl × Nat :=
  if env.acquireOk then
    let t := capture_loop s.is_capturing s.audio_buffer env.reads
    ({ s with is_capturing := t.1, audio_buffer := t.2.1 }, t.2.2)
  else ({ s with is_capturing := false }, 0)

/-- A step of the shared-buffer history: an append performed by the capture
loop (linux.rs:541-543), or a `get_audio_buffer` drain by the consumer. -/
inductive BufOp
  | append (xs : List ℚ)
  | drain

/-- The capture loop's append under the buffer lock. -/
def appendOp (xs : List ℚ) (s : CaptureCtrl) : CaptureCtrl :=
  { s with audio_buffer := s.audio_buffer ++ xs }

/-- Run a sequence of appends and drains, collecting each drain's returned
sample list (`none` when the drain returned `None`). -/
def runBuf : CaptureCtrl → List BufOp → CaptureCtrl × List (Option (List ℚ))
  | s, [] => (s, [])
  | s, BufOp.append xs :: ops => runBuf (appendOp xs s) ops
  | s, BufOp.drain :: ops =>
      let p := get_audio_buffer s
      let q := runBuf p.2 ops
      (q.1, p.1.map AudioBuffer.samples :: q.2)

/-- Concatenation of everything the drains delivered, in order. -/
def deliveredConcat : List (Option (List ℚ)) → List ℚ
  | [] => []
  | o :: rest => o.getD [] ++ deliveredConcat rest

/-- Concatenation of everything the appends contributed, in order. -/
def appendedConcat : List BufOp → List ℚ
  | [] => []
  | BufOp.append xs :: ops => xs ++ appendedConcat ops
  | BufOp.drain :: ops => appendedConcat ops

end PulseAudioCapture

/-- One PulseAudio sink/source record as the enumeration callbacks see it:
the optional `description` and optional `name` properties used for labeling. -/
structure PulseDeviceInfo where
  description : Option String
  name : Option String

namespace PulseAudioCapture

/-- Environment of one Linux `list_devices` call: outcomes of the subsystem
setup steps (mainloop and context creation, server connection, mainloop start,
context readiness), then the delivered sink records and source records (each
source tagged with whether it is a monitor-of-sink pseudo-source).  A
`ListResult::Error` during enumeration only stops the callback early, so it is
equivalent to the records simply ending. -/
structure PulseEnv where
  mainloopOk : Bool
  contextOk : Bool
  connectErr : Option String
  mainloopStartErr : Option String
  contextFailed : Bool
  sinks : List PulseDeviceInfo
  sources : List (PulseDeviceInfo × Bool)

/-- Sink label resolution (linux.rs:148-158): description, else name, else
`Speaker <index>`. -/
def sinkName (info : PulseDeviceInfo) (idx : Nat) : String :=
  info.description.getD (info.name.getD ("Speaker " ++ Nat.repr idx))

/-- Source label resolution (linux.rs:195-205): description, else name, else
`Microphone <index>`. -/
def sourceName (info : PulseDeviceInfo) (idx : Nat) : String :=
  info.description.getD (info.name.getD ("Microphone " ++ Nat.repr idx))

/-- The sink enumeration callback (linux.rs:146-171): one labeled entry per
sink, indices counting up from the starting index. -/
def sinkEntries : Nat → List PulseDeviceInfo → List String
  | _, [] => []
  | idx, info :: rest =>
      (Nat.repr idx ++ ": " ++ sinkName info idx ++ " (Speaker)")
        :: sinkEntries (idx + 1) rest

/-- The source enumeration callback (linux.rs:189-220): monitor sources are
skipped without consuming an index; real microphones get labeled entries. -/
def sourceEntries : Nat → List (PulseDeviceInfo × Bool) → List String
  | _, [] => []
  | idx, (info, isMonitor) :: rest =>
      if isMonitor then sourceEntries idx rest
      else (Nat.repr idx ++ ": " ++ sourceName info idx ++ " (Microphone)")
             :: sourceEntries (idx + 1) rest

/-- `PulseAudioCapture::list_devices` (linux.rs:81-240): subsystem setup
failures return errors; once set up, the static `0: Default Monitor (Default
Speaker)` entry is pushed first, then sinks from index 1, then non-monitor
sources also from index 1: the `move` closure at linux.rs:146 captures a
*copy* of `sink_index`, so the read at linux.rs:180 still sees 1 and the
source numbering restarts there, colliding with the sink indices.  Dynamic
tails of the error messages (`{e}`) are carried by the environment. -/
def list_devices (env : PulseEnv) : Except String (List String) :=
  if !env.mainloopOk then Except.error "Failed to create PulseAudio mainloop"
  else if !env.contextOk then Except.error "Failed to create PulseAudio context"
  else
    match env.connectErr with
    | some e => Except.error ("Failed to connect to PulseAudio: " ++ e)
    | none =>
      match env.mainloopStartErr with
      | some e => Except.error ("Failed to start mainloop: " ++ e)
      | none =>
        if env.contextFailed then Except.error "PulseAudio context failed"
        else
          Except.ok (("0: Default Monitor (Default Speaker)"
              :: sinkEntries 1 env.sinks)
            ++ sourceEntries 1 env.sources)

end PulseAudioCapture

namespace WasapiAudioCapture

/-- Environment of one Windows `list_devices` call: COM initialization and
enumerator creation outcomes, the default render device's resolved friendly
name (or `none` when `get_default_device` failed), then for each endpoint
collection the enumeration/count outcomes and the per-item resolved names
(`none` when `collection.Item(i)` failed — such items are skipped but still
consume their raw index).  Friendly-name resolution itself is the excluded
cosmetic collaborator, so names arrive resolved. -/
structure WasapiEnumEnv where
  comInitOk : Bool
  enumeratorOk : Bool
  defaultName : Option String
  speakerEnumOk : Bool
  speakerCountOk : Bool
  speakers : List (Option String)
  micEnumOk : Bool
  micCountOk : Bool
  mics : List (Option String)

/-- The speaker loop (windows.rs:485-495): entry index is the raw item index
plus one (index 0 is the default entry). -/
def speakerEntries : Nat → List (Option String) → List String
  | _, [] => []
  | i, some n :: rest =>
      (Nat.repr (i + 1) ++ ": " ++ n ++ " (Speaker)") :: speakerEntries (i + 1) rest
  | i, none :: rest => speakerEntries (i + 1) rest

/-- The microphone loop (windows.rs:514-526): entry index is the offset
(speaker count + 1) plus the raw item index. -/
def micEntries (off : Nat) : Nat → List (Option String) → List String
  | _, [] => []
  | i, some n :: rest =>
      (Nat.repr (off + i) ++ ": " ++ n ++ " (Microphone)") :: micEntries off (i + 1) rest
  | i, none :: rest => micEntries off (i + 1) rest

/-- `WasapiAudioCapture::list_devices` (windows.rs:438-541): COM or enumerator
failure returns an error; a failed default-device lookup degrades to the
static placeholder entry, but a failure of `EnumAudioEndpoints` or `GetCount`
on either collection returns an error. -/
def list_devices (env : WasapiEnumEnv) : Except String (List String) :=
  if !env.comInitOk then Except.error "Failed to initialize COM"
  else if !env.enumeratorOk then Except.error "Failed to create device enumerator"
  else
    let defEntry := match env.defaultName with
      | some n => "0: " ++ n ++ " (Default Speaker)"
      | none => "0: Default Communication Device (Speaker)"
    if !env.speakerEnumOk then Except.error "Failed to enumerate speaker endpoints"
    else if !env.speakerCountOk then Except.error "Failed to get speaker device count"
    else if !env.micEnumOk then Except.error "Failed to enumerate microphone endpoints"
    else if !env.micCountOk then Except.error "Failed to get microphone device count"
    else
      Except.ok ((defEntry :: speakerEntries 0 env.speakers)
        ++ micEntries (env.speakers.length + 1) 0 env.mics)

/-- Which device `get_device_by_index` settles on: the default render device
(`get_default_device()`), or the collection item at a raw index. -/
inductive ResolvedDevice
  | defaultDevice
  | item (n : Nat)
deriving DecidableEq, Repr

/-- Environment for one `get_default_device` call (windows.rs:67-90): whether
its own `CoCreateInstance` enumerator succeeds, and whether the
`GetDefaultAudioEndpoint` lookup succeeds for the communications role and for
the console (multimedia) role it falls back to. -/
structure DefaultDeviceEnv where
  enumeratorOk : Bool
  commEndpointOk : Bool
  consoleEndpointOk : Bool

/-- `WasapiAudioCapture::get_default_device` (windows.rs:67-90): create an
enumerator, try the default communications render endpoint, fall back to the
default console endpoint, and error when both lookups fail. -/
def get_default_device (env : DefaultDeviceEnv) : Except String ResolvedDevice :=
  if !env.enumeratorOk then Except.error "Failed to create device enumerator"
  else if env.commEndpointOk then Except.ok ResolvedDevice.defaultDevice
  else if env.consoleEndpointOk then Except.ok ResolvedDevice.defaultDevice
  else Except.error "Failed to get default audio endpoint"

/-- Environment for `get_device_by_index`: the environment of the
`get_default_device` call it may delegate to, then outcomes of its own
enumerator creation, `EnumAudioEndpoints`, `GetCount` (with the returned
count) and the final `collection.Item` call. -/
structure EndpointEnv where
  defaultDev : DefaultDeviceEnv
  enumeratorOk : Bool
  enumOk : Bool
  countOk : Bool
  count : Nat
  itemOk : Bool

/-- `WasapiAudioCapture::get_device_by_index` (windows.rs:96-135): index 0
returns `get_default_device()` outright (windows.rs:99-102); otherwise
enumerate active render endpoints, and when `index - 1` (saturating) is at or
past the count, log and fall back to `get_default_device()`
(windows.rs:123-129); within range, return that item. -/
def get_device_by_index (env : EndpointEnv) (device_index : Nat) :
    Except String ResolvedDevice :=
  if device_index = 0 then get_default_device env.defaultDev
  else if !env.enumeratorOk then Except.error "Failed to create device enumerator"
  else if !env.enumOk then Except.error "Failed to enumerate audio endpoints"
  else if !env.countOk then Except.error "Failed to get device count"
  else if env.count ≤ device_index - 1 then get_default_device env.defaultDev
  else if env.itemOk then Except.ok (ResolvedDevice.item (device_index - 1))
  else Except.error "Failed to get device"

end WasapiAudioCapture

/-- The `hound::WavSpec` header `save_wav_file` builds (audio_file.rs:20-25). -/
structure WavSpec where
  channels : Nat
  sample_rate : Nat
  bits_per_sample : Nat
  sampleFormatInt : Bool
deriving DecidableEq, Repr

/-- Truncation toward zero, the rounding of Rust's float-to-integer `as`
cast. -/
def truncTowardZero (q : ℚ) : Int :=
  if 0 ≤ q then ⌊q⌋ else -⌊-q⌋

/-- The per-sample conversion of `save_wav_file` (audio_file.rs:33-41):
clamp to [-1, 1] via `sample.max(-1.0).min(1.0)`, scale by 32768.0 (exact in
`f32`), and cast `as i16` — truncating toward zero and saturating to the
`i16` range, so 1.0 maps to 32767 and -1.0 to -32768. -/
def f32_as_i16 (sample : ℚ) : Int :=
  let clamped := min 1 (max (-1) sample)
  let scaled := clamped * 32768
  min 32767 (max (-32768) (truncTowardZero scaled))

/-- `save_wav_file` (audio_file.rs:18-57): the WAV header is built from the
buffer's format — channel count, sample rate and the buffer's own
`bits_per_sample` — with integer sample format, and every `f32` sample is
written through the `i16` conversion.  The pair is the header and the written
integer samples; `hound`'s container serialization and the file system are
excluded collaborators. -/
def save_wav_file (buffer : AudioBuffer) : WavSpec × List Int :=
  ({ channels := buffer.format.channels,
     sample_rate := buffer.format.sample_rate,
     bits_per_sample := buffer.format.bits_per_sample,
     sampleFormatInt := true },
   buffer.samples.map f32_as_i16)

/-- C6: PCM16LE conversion maps each 2-byte little-endian two's-complement
value to that signed value divided by 32768.0, and the byte run
`[0x00,0x00, 0x00,0x40, 0x00,0xC0]` converts to `[0.0, 0.5, -0.5]` — here
exactly, which is in particular within the claimed 1e-3.  The Linux path
(`chunks_exact(2)` into `i16::from_le_bytes`, then `convert_samples`) agrees
on the same byte run. -/
theorem c6_pcm16_conversion : ∀ dec : Nat → Nat → Nat → Nat → ℚ,
    (∀ (b0 b1 : Nat) (rest : List Nat),
      WasapiAudioCapture.convert_samples_to_f32 dec (b0 :: b1 :: rest) 16
        = ((i16_from_le_bytes b0 b1 : ℚ) / 32768)
            :: WasapiAudioCapture.convert_samples_to_f32 dec rest 16)
    ∧ WasapiAudioCapture.convert_samples_to_f32 dec [0, 0, 0, 64, 0, 192] 16
        = [(0 : ℚ), 1/2, -(1/2)]
    ∧ PulseAudioCapture.convert_samples
        [i16_from_le_bytes 0 0, i16_from_le_bytes 0 64, i16_from_le_bytes 0 192]
        = [(0 : ℚ), 1/2, -(1/2)] := by
  intro dec
  refine ⟨fun b0 b1 rest => ?_, ?_, ?_⟩
  · simp [WasapiAudioCapture.convert_samples_to_f32, WasapiAudioCapture.pcm16Samples]
  · norm_num [WasapiAudioCapture.convert_samples_to_f32,
      WasapiAudioCapture.pcm16Samples, i16_from_le_bytes]
  · norm_num [PulseAudioCapture.convert_samples, i16_from_le_bytes]

/-- C4: refuted — the PCM24LE path is not confined to `[-1, 1]`.  Placing the
three chunk bytes in the high-order positions of the `i32` multiplies the
24-bit value by 256, and dividing by 8388608 (2^23) then yields
`value / 32768`, which ranges over `[-256, 256)`.  At the byte run
`[0x00, 0x00, 0x01]` (24-bit value 65536) the code produces exactly `2.0`,
outside the claimed normalized range. -/
theorem c4_pcm24_exceeds_unit_range : ∀ dec : Nat → Nat → Nat → Nat → ℚ,
    WasapiAudioCapture.convert_samples_to_f32 dec [0, 0, 1] 24 = [(2 : ℚ)]
    ∧ ∃ q ∈ WasapiAudioCapture.convert_samples_to_f32 dec [0, 0, 1] 24, 1 < q := by
  intro dec
  have h : WasapiAudioCapture.convert_samples_to_f32 dec [0, 0, 1] 24 = [(2 : ℚ)] := by
    norm_num [WasapiAudioCapture.convert_samples_to_f32,
      WasapiAudioCapture.pcm24Samples, i32_from_le_high3]
  refine ⟨h, 2, ?_, by norm_num⟩
  rw [h]
  exact List.mem_singleton.mpr rfl

namespace PulseAudioCapture

/-- Helper: the Linux device-name resolver returns `Ok` on every index. -/
theorem get_device_name_by_index_ok (i : Nat) :
    get_device_name_by_index i
      = Except.ok (if i = 0 then "@DEFAULT_MONITOR@" else "device_" ++ Nat.repr i) := by
  unfold get_device_name_by_index
  split <;> simp [*]

/-- Helper: a drain always leaves the shared buffer empty. -/
theorem get_audio_buffer_clears (s : CaptureCtrl) :
    ((get_audio_buffer s).2).audio_buffer = [] := by
  obtain ⟨f, buf, fmt, hd⟩ := s
  cases buf <;> simp [get_audio_buffer]

/-- Helper: samples are conserved across any append/drain history — what the
drains delivered followed by what is still buffered is exactly what was
appended, in order. -/
theorem runBuf_conserve (ops : List BufOp) (s : CaptureCtrl) :
    deliveredConcat (runBuf s ops).2 ++ ((runBuf s ops).1).audio_buffer
      = s.audio_buffer ++ appendedConcat ops := by
  induction ops generalizing s with
  | nil => simp [runBuf, deliveredConcat, appendedConcat]
  | cons op ops ih =>
    cases op with
    | append xs =>
        have h := ih (appendOp xs s)
        simp only [runBuf, appendedConcat]
        simpa [appendOp, List.append_assoc] using h
    | drain =>
        obtain ⟨f, buf, fmt, hd⟩ := s
        cases buf with
        | nil =>
            have h := ih ⟨f, [], fmt, hd⟩
            simpa [runBuf, get_audio_buffer, deliveredConcat, appendedConcat] using h
        | cons x xs =>
            have h := ih ⟨f, [], fmt, hd⟩
            simp only [runBuf, get_audio_buffer, deliveredConcat, appendedConcat] at *
            simp [h, List.append_assoc]

/-- Helper: running a history splits along concatenation of histories. -/
theorem runBuf_append (ops1 ops2 : List BufOp) (s : CaptureCtrl) :
    runBuf s (ops1 ++ ops2)
      = ((runBuf (runBuf s ops1).1 ops2).1,
         (runBuf s ops1).2 ++ (runBuf (runBuf s ops1).1 ops2).2) := by
  induction ops1 generalizing s with
  | nil => simp [runBuf]
  | cons op ops ih =>
    cases op with
    | append xs => simp [runBuf, ih]
    | drain => simp [runBuf, ih]

/-- Helper: after a history ending in a drain, the buffer is empty. -/
theorem runBuf_final_drain_empty (ops : List BufOp) (s : CaptureCtrl) :
    ((runBuf s (ops ++ [BufOp.drain])).1).audio_buffer = [] := by
  have h : ∀ t : CaptureCtrl, ((runBuf t [BufOp.drain]).1).audio_buffer = [] := by
    intro t
    obtain ⟨f, buf, fmt, hd⟩ := t
    cases buf <;> simp [runBuf, get_audio_buffer]
  rw [runBuf_append]
  exact h _

end PulseAudioCapture

/-- C3: over every sequence of appends and drains starting from an idle
controller, the drains deliver exactly the appended samples in order (what was
delivered plus what is still buffered equals everything appended, and a
history ending in a drain leaves nothing buffered — so no sample is delivered
twice or lost); moreover `get_audio_buffer` returns `None` exactly when the
buffer holds nothing new, and on a non-empty buffer atomically removes and
returns the whole accumulated content, so an immediately following drain
returns `None` again and `Some []` is never produced. -/
theorem c3_get_audio_buffer_drains_exactly :
    ∀ (ops : List PulseAudioCapture.BufOp) (fmt : AudioFormat),
    (PulseAudioCapture.deliveredConcat
        (PulseAudioCapture.runBuf ⟨false, [], fmt, false⟩ ops).2
      ++ ((PulseAudioCapture.runBuf ⟨false, [], fmt, false⟩ ops).1).audio_buffer
      = PulseAudioCapture.appendedConcat ops)
    ∧ ((PulseAudioCapture.runBuf ⟨false, [], fmt, false⟩
          (ops ++ [PulseAudioCapture.BufOp.drain])).1).audio_buffer = []
    ∧ (∀ s : CaptureCtrl,
        (PulseAudioCapture.get_audio_buffer { s with audio_buffer := [] }).1 = none)
    ∧ (∀ (s : CaptureCtrl) (x : ℚ) (xs : List ℚ),
        PulseAudioCapture.get_audio_buffer { s with audio_buffer := x :: xs }
          = (some ⟨x :: xs, s.format⟩, { s with audio_buffer := [] })) := by
  intro ops fmt
  refine ⟨?_, PulseAudioCapture.runBuf_final_drain_empty ops _, ?_, ?_⟩
  · simpa using PulseAudioCapture.runBuf_conserve ops ⟨false, [], fmt, false⟩
  · intro s
    simp [PulseAudioCapture.get_audio_buffer]
  · intro s x xs
    simp [PulseAudioCapture.get_audio_buffer]

/-- C2: the `start_capture` guard is a single check-and-set critical section
on the `is_capturing` mutex: it returns the AlreadyCapturing error exactly
when a session is already active (leaving the state unchanged), returns `Ok`
when none is, and when two calls race, the mutex serializes their
check-and-sets, so whichever runs second sees the flag set — exactly one
succeeds and the loser changes nothing. -/
theorem c2_start_capture_atomic_guard :
    ∀ (sel sel2 : Option String) (buf : List ℚ) (fmt : AudioFormat) (hd : Bool),
    PulseAudioCapture.start_capture sel ⟨true, buf, fmt, hd⟩
      = (Except.error "Capture already in progress", ⟨true, buf, fmt, hd⟩)
    ∧ (PulseAudioCapture.start_capture sel ⟨false, buf, fmt, hd⟩).1 = Except.ok ()
    ∧ (PulseAudioCapture.start_capture sel2
        (PulseAudioCapture.start_capture sel ⟨false, buf, fmt, hd⟩).2).1
        = Except.error "Capture already in progress"
    ∧ (PulseAudioCapture.start_capture sel2
        (PulseAudioCapture.start_capture sel ⟨false, buf, fmt, hd⟩).2).2
        = (PulseAudioCapture.start_capture sel ⟨false, buf, fmt, hd⟩).2 := by
  intro sel sel2 buf fmt hd
  refine ⟨by simp [PulseAudioCapture.start_capture], ?_, ?_, ?_⟩ <;>
    simp [PulseAudioCapture.start_capture, PulseAudioCapture.get_device_name_by_index_ok]

/-- C8: `stop_capture` is idempotent — every call returns `Ok`; after one call
the flag is down, so a second call is a no-op and the state after two calls
equals the state after one; and on an already-inactive controller the call
changes nothing at all. -/
theorem c8_stop_capture_idempotent : ∀ s : CaptureCtrl,
    (PulseAudioCapture.stop_capture s).1 = Except.ok ()
    ∧ (PulseAudioCapture.stop_capture (PulseAudioCapture.stop_capture s).2).1
        = Except.ok ()
    ∧ (PulseAudioCapture.stop_capture (PulseAudioCapture.stop_capture s).2).2
        = (PulseAudioCapture.stop_capture s).2
    ∧ (∀ (buf : List ℚ) (fmt : AudioFormat) (hd : Bool),
        PulseAudioCapture.stop_capture ⟨false, buf, fmt, hd⟩
          = (Except.ok (), ⟨false, buf, fmt, hd⟩)) := by
  intro s
  obtain ⟨f, buf, fmt, hd⟩ := s
  cases f <;> simp [PulseAudioCapture.stop_capture]

/-- C1 counterexample: from a fresh controller, `start_capture` returns `Ok`
even in the run where the worker's `Simple::new` fails — the worker aborts
with zero reads, clears the flag and appends nothing, yet the start call that
spawned it reported success, so an `Ok` from `start_capture` does not mean no
failed partial capture occurred. -/
theorem c1_start_ok_despite_failed_worker :
    (PulseAudioCapture.start_capture none PulseAudioCapture.new).1 = Except.ok ()
    ∧ PulseAudioCapture.worker ⟨false, []⟩
        (PulseAudioCapture.start_capture none PulseAudioCapture.new).2
        = (⟨false, [], PulseAudioCapture.negotiatedSpec, true⟩, 0) := by
  exact ⟨rfl, rfl⟩

/-- C1 amended: when the worker fails to acquire the capture handle it aborts
before the read cycle (zero reads attempted), clears the active flag and
appends nothing; but the `start_capture` call that spawned it still returns
`Ok` whenever no session was already active — the failure is observable only
through `is_capturing()` turning false, not through `start_capture`'s return
value. -/
theorem c1_failed_acquire_aborts_cleanly :
    ∀ (reads : List ReadResult) (s : CaptureCtrl) (sel : Option String)
      (buf : List ℚ) (fmt : AudioFormat) (hd : Bool),
    PulseAudioCapture.worker ⟨false, reads⟩ s = ({ s with is_capturing := false }, 0)
    ∧ (PulseAudioCapture.start_capture sel ⟨false, buf, fmt, hd⟩).1 = Except.ok () := by
  intro reads s sel buf fmt hd
  refine ⟨rfl, ?_⟩
  simp [PulseAudioCapture.start_capture, PulseAudioCapture.get_device_name_by_index_ok]

/-- C5: a mid-run I/O read failure makes the capture loop break out after the
failing read, but nothing on that path clears the shared `is_capturing` flag —
after the worker returns, `is_capturing()` still reads `true`, contradicting
the claim that the termination becomes observable as `is_capturing()` = false
(it also means a later `start_capture` would keep failing with
AlreadyCapturing until `stop_capture` is called). -/
theorem c5_io_error_keeps_flag_set :
    ((PulseAudioCapture.worker ⟨true, [ReadResult.err]⟩
        ⟨true, [], PulseAudioCapture.negotiatedSpec, true⟩).1).is_capturing = true
    ∧ (PulseAudioCapture.worker ⟨true, [ReadResult.err]⟩
        ⟨true, [], PulseAudioCapture.negotiatedSpec, true⟩).2 = 1 := by
  exact ⟨rfl, rfl⟩

/-- C7 counterexample: `list_devices` does not return a placeholder list for
every failure of the underlying platform machinery — when the PulseAudio
mainloop cannot be created, and when the Windows `EnumAudioEndpoints` call
fails, the method returns an error, not a non-empty labeled list. -/
theorem c7_setup_failure_returns_error :
    PulseAudioCapture.list_devices ⟨false, true, none, none, false, [], []⟩
      = Except.error "Failed to create PulseAudio mainloop"
    ∧ WasapiAudioCapture.list_devices
        ⟨true, true, some "Speakers", false, true, [], true, true, []⟩
      = Except.error "Failed to enumerate speaker endpoints" := by
  exact ⟨rfl, rfl⟩

/-- C7 amended: whenever the audio-subsystem setup steps succeed,
`list_devices` returns a non-empty `Ok` list whose first entry is the
index-0 default entry — on Linux the static `0: Default Monitor (Default
Speaker)` entry, on Windows an entry starting with `0: ` that degrades to the
static placeholder when the default-device lookup fails — even when zero
devices are reported or every per-item query fails; but setup or
enumeration-API failures surface as errors rather than a placeholder list. -/
theorem c7_list_devices_ok_nonempty :
    ∀ (pe : PulseAudioCapture.PulseEnv) (we : WasapiAudioCapture.WasapiEnumEnv),
    (pe.mainloopOk = true → pe.contextOk = true → pe.connectErr = none →
      pe.mainloopStartErr = none → pe.contextFailed = false →
      ∃ rest, PulseAudioCapture.list_devices pe
        = Except.ok ("0: Default Monitor (Default Speaker)" :: rest))
    ∧ (we.comInitOk = true → we.enumeratorOk = true → we.speakerEnumOk = true →
        we.speakerCountOk = true → we.micEnumOk = true → we.micCountOk = true →
        ∃ d rest, WasapiAudioCapture.list_devices we = Except.ok (d :: rest)
          ∧ ∃ t, d = "0: " ++ t) := by
  intro pe we
  constructor
  · intro h1 h2 h3 h4 h5
    refine ⟨PulseAudioCapture.sinkEntries 1 pe.sinks
        ++ PulseAudioCapture.sourceEntries 1 pe.sources, ?_⟩
    simp [PulseAudioCapture.list_devices, h1, h2, h3, h4, h5]
  · intro h1 h2 h3 h4 h5 h6
    cases hdn : we.defaultName with
    | none =>
        refine ⟨"0: Default Communication Device (Speaker)",
          WasapiAudioCapture.speakerEntries 0 we.speakers
            ++ WasapiAudioCapture.micEntries (we.speakers.length + 1) 0 we.mics,
          ?_, "Default Communication Device (Speaker)", ?_⟩
        · simp [WasapiAudioCapture.list_devices, h1, h2, h3, h4, h5, h6, hdn]
        · rfl
    | some n =>
        refine ⟨"0: " ++ n ++ " (Default Speaker)",
          WasapiAudioCapture.speakerEntries 0 we.speakers
            ++ WasapiAudioCapture.micEntries (we.speakers.length + 1) 0 we.mics,
          ?_, n ++ " (Default Speaker)", ?_⟩
        · simp [WasapiAudioCapture.list_devices, h1, h2, h3, h4, h5, h6, hdn]
        · exact String.append_assoc "0: " n " (Default Speaker)"

/-- Witness for C7 amended, at environments where the subsystem setup
succeeds but zero devices are reported (and, on Windows, even the
default-device lookup fails): the list is still non-empty with the index-0
entry. -/
theorem c7_list_devices_ok_nonempty_witness :
    (∃ rest, PulseAudioCapture.list_devices ⟨true, true, none, none, false, [], []⟩
      = Except.ok ("0: Default Monitor (Default Speaker)" :: rest))
    ∧ (∃ d rest, WasapiAudioCapture.list_devices
          ⟨true, true, none, true, true, [], true, true, []⟩
        = Except.ok (d :: rest) ∧ ∃ t, d = "0: " ++ t) := by
  exact ⟨(c7_list_devices_ok_nonempty ⟨true, true, none, none, false, [], []⟩
            ⟨true, true, none, true, true, [], true, true, []⟩).1 rfl rfl rfl rfl rfl,
         (c7_list_devices_ok_nonempty ⟨true, true, none, none, false, [], []⟩
            ⟨true, true, none, true, true, [], true, true, []⟩).2 rfl rfl rfl rfl rfl rfl⟩

/-- C10: a `None` selector, or a selector whose text before the first `:`
does not parse as an integer, resolves to device index 0, so an unrecognized
selector resolves exactly as the default selector does and contributes no
failure of its own; on Windows, index 0 delegates to the `get_default_device`
resolution without touching the enumeration, an index at or past the
enumerated count falls back to that same default-device resolution, and that
resolution returns `Ok` whenever the OS default-endpoint lookup succeeds
(including via the console-role fallback); the Linux device-name resolver
returns `Ok` on every index. -/
theorem c10_unrecognized_selector_falls_back :
    (deviceIndex none = 0)
    ∧ (∀ s : String,
        parseUsizeChars (selectorIndexText s) = none →
        deviceIndex (some s) = 0)
    ∧ (∀ env : WasapiAudioCapture.EndpointEnv,
        WasapiAudioCapture.get_device_by_index env 0
          = WasapiAudioCapture.get_default_device env.defaultDev)
    ∧ (∀ (env : WasapiAudioCapture.EndpointEnv) (idx : Nat),
        env.enumeratorOk = true → env.enumOk = true → env.countOk = true →
        env.count < idx →
        WasapiAudioCapture.get_device_by_index env idx
          = WasapiAudioCapture.get_default_device env.defaultDev)
    ∧ (∀ dd : WasapiAudioCapture.DefaultDeviceEnv,
        dd.enumeratorOk = true → dd.consoleEndpointOk = true →
        WasapiAudioCapture.get_default_device dd
          = Except.ok WasapiAudioCapture.ResolvedDevice.defaultDevice)
    ∧ (∀ (env : WasapiAudioCapture.EndpointEnv) (s : String),
        parseUsizeChars (selectorIndexText s) = none →
        WasapiAudioCapture.get_device_by_index env (deviceIndex (some s))
          = WasapiAudioCapture.get_device_by_index env (deviceIndex none))
    ∧ (∀ i : Nat, ∃ nm, PulseAudioCapture.get_device_name_by_index i
        = Except.ok nm) := by
  refine ⟨rfl, ?_, ?_, ?_, ?_, ?_, ?_⟩
  · intro s h
    simp [deviceIndex, h]
  · intro env
    rfl
  · intro env idx h1 h2 h3 h4
    have hi : ¬ idx = 0 := by omega
    have hc : env.count ≤ idx - 1 := by omega
    simp [WasapiAudioCapture.get_device_by_index, hi, h1, h2, h3, hc]
  · intro dd h1 h2
    cases hcm : dd.commEndpointOk <;>
      simp [WasapiAudioCapture.get_default_device, h1, h2, hcm]
  · intro env s h
    have h2 : deviceIndex (some s) = 0 := by simp [deviceIndex, h]
    rw [h2]
    rfl
  · intro i
    exact ⟨_, PulseAudioCapture.get_device_name_by_index_ok i⟩

/-- Witness for C10, at the selector `"x"` (no integer before any `:`), at
index 7 against an enumeration that reported 2 devices with a default device
resolvable in the communications role, and at a default-device environment
where the communications-role lookup fails but the console fallback
succeeds. -/
theorem c10_unrecognized_selector_falls_back_witness :
    deviceIndex (some "x") = 0
    ∧ WasapiAudioCapture.get_device_by_index
        ⟨⟨true, true, true⟩, true, true, true, 2, true⟩ 7
        = Except.ok WasapiAudioCapture.ResolvedDevice.defaultDevice
    ∧ WasapiAudioCapture.get_default_device ⟨true, false, true⟩
        = Except.ok WasapiAudioCapture.ResolvedDevice.defaultDevice := by
  refine ⟨c10_unrecognized_selector_falls_back.2.1 "x" (by decide), ?_,
          c10_unrecognized_selector_falls_back.2.2.2.2.1 ⟨true, false, true⟩ rfl rfl⟩
  exact (c10_unrecognized_selector_falls_back.2.2.2.1
          ⟨⟨true, true, true⟩, true, true, true, 2, true⟩ 7 rfl rfl rfl
          (by norm_num)).trans
        (c10_unrecognized_selector_falls_back.2.2.2.2.1 ⟨true, true, true⟩ rfl rfl)

/-- C9: refuted in its header clause — `save_wav_file` copies the buffer's
own `bits_per_sample` into the WAV header rather than a fixed 16: for the
typical Windows 32-bit-float capture format the header declares a 32-bit
integer depth (not 16) while every sample is still written as a clamped,
truncated 16-bit integer, so the produced container is not canonical PCM16.
The channel count and sample rate are copied from the buffer as claimed. -/
theorem c9_wav_header_copies_bit_depth :
    (save_wav_file ⟨[(1 : ℚ)/2, -(2 : ℚ)], ⟨48000, 2, 32⟩⟩).1
      = ⟨2, 48000, 32, true⟩
    ∧ ¬ ((save_wav_file ⟨[(1 : ℚ)/2, -(2 : ℚ)], ⟨48000, 2, 32⟩⟩).1.bits_per_sample
          = 16)
    ∧ (save_wav_file ⟨[(1 : ℚ)/2, -(2 : ℚ)], ⟨48000, 2, 32⟩⟩).2 = [16384, -32768] := by
  refine ⟨rfl, by norm_num [save_wav_file], ?_⟩
  norm_num [save_wav_file, f32_as_i16, truncTowardZero, min_def, max_def]

end MeetScribe
